import Mathlib

/-!
Shallow embedding of the two Windows build-orchestration scripts of the
vnelogging repository:

* `scripts/build_windows.py`          (the VneLogging build orchestrator)
* `deps/internal/vnecommon/scripts/build_windows.py` (the VneCommon build script)

External subprocesses (cmake configure, cmake --build, ctest) are modelled by
an oracle recording their exit codes; the filesystem build directory is
modelled as `Option (List String)` (absent, or present with a list of
entries).  The run of `main` after the environment checks is modelled as the
list of external-tool / filesystem events it performs together with the
process exit code.
-/

namespace VneLogging

/-- The `BuildConfig` class of `scripts/build_windows.py` (its `__init__`
defaults are `default_BuildConfig` below).  `jobs` is a Python `int`,
modelled as `Int`. -/
structure BuildConfig where
  jobs : Int
  build_type : String
  action : String
  clean_build : Bool
  interactive : Bool
  platform : String
  compiler : String
  deriving Repr, DecidableEq

/-- Field defaults set in `BuildConfig.__init__`. -/
def default_BuildConfig : BuildConfig :=
  { jobs := 10
    build_type := "Debug"
    action := "configure_and_build"
    clean_build := false
    interactive := false
    platform := "Windows"
    compiler := "cl" }

/-- ASCII whitespace stripped by Python `str.strip()` (space, tab, newline,
carriage return, vertical tab, form feed; the unicode cases do not occur in
the strings the scripts compare against). -/
def isPySpace (c : Char) : Bool :=
  c = ' ' || c = '\t' || c = '\n' || c = '\r' || c = '\x0B' || c = '\x0C'

/-- Python `str.strip()`: drop leading and trailing whitespace. -/
def pyStrip (s : String) : String :=
  ⟨((s.data.dropWhile isPySpace).reverse.dropWhile isPySpace).reverse⟩

/-- ASCII lowercasing of one character (the strings the scripts compare
against, `y` and `n`, are ASCII). -/
def asciiLower (c : Char) : Char :=
  if c.isUpper then Char.ofNat (c.toNat + 32) else c

/-- Python `str.lower()` on ASCII strings. -/
def pyLower (s : String) : String := ⟨s.data.map asciiLower⟩

/-- After the leading digit of a Python decimal literal: a sequence of
digits in which a single underscore may stand between two digits
(`digit (["_"] digit)*`). -/
def pyDigitsRest : List Char → Bool
  | [] => true
  | '_' :: [] => false
  | '_' :: c :: rest => c.isDigit && pyDigitsRest rest
  | c :: rest => c.isDigit && pyDigitsRest rest

/-- A nonempty Python decimal digit part. -/
def pyDigitsOk : List Char → Bool
  | [] => false
  | c :: rest => c.isDigit && pyDigitsRest rest

/-- Numeric value of a digit part, skipping the underscores. -/
def digitsVal (cs : List Char) : Nat :=
  cs.foldl (fun acc c => if c = '_' then acc else acc * 10 + (c.toNat - '0'.toNat)) 0

/-- Python `int(s)` on a base-10 string: strip whitespace, optional sign,
then a digit part; a `ValueError` is `none`. -/
def pyInt (s : String) : Option Int :=
  match (pyStrip s).data with
  | '+' :: rest => if pyDigitsOk rest then some (digitsVal rest) else none
  | '-' :: rest => if pyDigitsOk rest then some (-(digitsVal rest : Int)) else none
  | rest => if pyDigitsOk rest then some (digitsVal rest) else none

/-- The five `input()` answers read by `interactive_mode`, in prompt order. -/
structure Answers where
  buildChoice : String
  actionChoice : String
  cleanChoice : String
  jobsInput : String
  proceed : String
  deriving Repr

/-- Empty answers (every prompt answered by just pressing return). -/
def emptyAnswers : Answers := ⟨"", "", "", "", ""⟩

/-- Model of `interactive_mode(config)` in `scripts/build_windows.py`: mutates the
configuration according to the five stripped answers; answering `n` to the
final confirmation calls `sys.exit(0)`, modelled as `none`. -/
def interactive_mode (c0 : BuildConfig) (ans : Answers) : Option BuildConfig :=
  let bc := pyStrip ans.buildChoice
  let c1 := { c0 with
    build_type :=
      if bc = "2" then "Release"
      else if bc = "3" then "RelWithDebInfo"
      else if bc = "4" then "MinSizeRel"
      else "Debug" }
  let ac := pyStrip ans.actionChoice
  let c2 := { c1 with
    action :=
      if ac = "1" then "configure"
      else if ac = "3" then "test"
      else "configure_and_build" }
  let cc := pyStrip ans.cleanChoice
  let c3 := if pyLower cc = "y" then { c2 with clean_build := true } else c2
  let js := pyStrip ans.jobsInput
  let c4 :=
    if js ≠ "" then
      match pyInt js with
      | some n => { c3 with jobs := n }
      | none => c3
    else c3
  let pr := pyStrip ans.proceed
  if pyLower pr = "n" then none else some c4

/-- The record produced by `parser.parse_args()` in `main` of
`scripts/build_windows.py`. -/
structure Args where
  build_type : String
  action : String
  jobs : Int
  clean : Bool
  interactive : Bool
  deriving Repr, DecidableEq

/-- The argparse defaults declared by the five `add_argument` calls. -/
def defaultArgs : Args :=
  { build_type := "Debug"
    action := "configure_and_build"
    jobs := 10
    clean := false
    interactive := false }

/-- Valid `choices` of `--build-type`. -/
def buildTypeChoices : List String := ["Debug", "Release", "RelWithDebInfo", "MinSizeRel"]

/-- Valid `choices` of `--action`. -/
def actionChoices : List String := ["configure", "build", "configure_and_build", "test"]

/-- The argparse command line of `scripts/build_windows.py` on canonical
token lists: value options consume the following token (checked against
`choices`, or converted by `int`), store_true flags set their field; an
unknown token, missing value, bad choice or unparsable number is a parse
error (`none`, argparse exits with an error). -/
def parseTokens : List String → Args → Option Args
  | [], a => some a
  | "-t" :: v :: rest, a =>
      if v ∈ buildTypeChoices then parseTokens rest { a with build_type := v } else none
  | "--build-type" :: v :: rest, a =>
      if v ∈ buildTypeChoices then parseTokens rest { a with build_type := v } else none
  | "-a" :: v :: rest, a =>
      if v ∈ actionChoices then parseTokens rest { a with action := v } else none
  | "--action" :: v :: rest, a =>
      if v ∈ actionChoices then parseTokens rest { a with action := v } else none
  | "-j" :: v :: rest, a =>
      match pyInt v with
      | some n => parseTokens rest { a with jobs := n }
      | none => none
  | "--jobs" :: v :: rest, a =>
      match pyInt v with
      | some n => parseTokens rest { a with jobs := n }
      | none => none
  | "--clean" :: rest, a => parseTokens rest { a with clean := true }
  | "--interactive" :: rest, a => parseTokens rest { a with interactive := true }
  | _, _ => none

/-- Parse a command line starting from the argparse defaults. -/
def parseArgs (toks : List String) : Option Args := parseTokens toks defaultArgs

/-- The assignment block of `main` (config fields copied from the parsed
arguments). -/
def configFromArgs (a : Args) : BuildConfig :=
  { default_BuildConfig with
    build_type := a.build_type
    action := a.action
    jobs := a.jobs
    clean_build := a.clean
    interactive := a.interactive }

/-- Configuration setup of `main` given parsed arguments: run
`interactive_mode` iff the interactive flag is set (`none` = the user
cancelled at the confirmation prompt). -/
def setupFromArgs (a : Args) (ans : Answers) : Option BuildConfig :=
  let c := configFromArgs a
  if c.interactive then interactive_mode c ans else some c

/-- Whole configuration setup of `main` from a command line: flag parsing,
field copy, optional interactive pass. -/
def setupConfig (toks : List String) (ans : Answers) : Option BuildConfig :=
  match parseArgs toks with
  | some a => setupFromArgs a ans
  | none => none

/-- A combination of command-line flags: each value option either omitted
(`none`) or supplied with a value token, each store_true flag either given
or not. -/
structure FlagSet where
  buildType : Option String
  action : Option String
  jobsStr : Option String
  clean : Bool
  interactive : Bool
  deriving Repr

/-- The canonical command line presenting exactly the supplied flags. -/
def FlagSet.tokens (f : FlagSet) : List String :=
  (match f.buildType with
    | some v => ["--build-type", v]
    | none => []) ++
  (match f.action with
    | some v => ["--action", v]
    | none => []) ++
  (match f.jobsStr with
    | some v => ["--jobs", v]
    | none => []) ++
  (if f.clean then ["--clean"] else []) ++
  (if f.interactive then ["--interactive"] else [])

/-- Modelled from the spec's words for comparison: the argument record whose
fields equal "the flags supplied (or defaults when omitted)", the defaults
being the documented ones (`Debug`, `configure_and_build`, 10 jobs, flags
off). -/
def FlagSet.specResolve (f : FlagSet) : Args :=
  { build_type := f.buildType.getD "Debug"
    action := f.action.getD "configure_and_build"
    jobs :=
      match f.jobsStr with
      | some v => (pyInt v).getD 10
      | none => 10
    clean := f.clean
    interactive := f.interactive }

/-- Observable external events of a run: recursive directory removal
(`shutil.rmtree`), directory creation (`mkdir`), and the three external tool
invocations. -/
inductive Ev where
  | rmtree
  | mkdir
  | configure
  | build
  | test
  deriving Repr, DecidableEq

/-- Exit codes of the three external subprocesses, fixed in advance.
`subprocess.run(..., check=True)` raises exactly when the code is nonzero,
so `configure_project` / `build_project` / `run_tests` return `True` iff the
corresponding code is `0`. -/
structure Oracle where
  configureExit : Nat
  buildExit : Nat
  testExit : Nat
  deriving Repr, DecidableEq

/-- The build directory: `none` if absent, otherwise its entries. -/
abbrev FS := Option (List String)

/-- Model of `clean_build_dir(build_dir)`: `rmtree` if the directory exists, then
`mkdir(parents=True, exist_ok=True)`; returns the events and the resulting
directory state. -/
def clean_build_dir : FS → List Ev × FS
  | some _ => ([Ev.rmtree, Ev.mkdir], some [])
  | none => ([Ev.mkdir], some [])

/-- Model of `ensure_build_dir(build_dir)`: `mkdir(parents=True, exist_ok=True)`. -/
def ensure_build_dir : FS → List Ev × FS
  | some cs => ([Ev.mkdir], some cs)
  | none => ([Ev.mkdir], some [])

/-- The action block of `main` (`scripts/build_windows.py`, after the
directory handling): configure when the action is one of the four known
actions, exiting 1 on a nonzero configure exit; build when the action needs
a build, exiting 1 on a nonzero build exit; `run_tests` when the action is
exactly `test`, its exit code ignored; otherwise fall through to the success
message and exit 0. -/
def runActions (c : BuildConfig) (w : Oracle) : List Ev × Nat :=
  let needCfg := c.action ∈ ["configure", "build", "configure_and_build", "test"]
  if needCfg ∧ w.configureExit ≠ 0 then ([Ev.configure], 1)
  else
    let t1 := if needCfg then [Ev.configure] else []
    let needBuild := c.action ∈ ["build", "configure_and_build", "test"]
    if needBuild ∧ w.buildExit ≠ 0 then (t1 ++ [Ev.build], 1)
    else
      let t2 := if needBuild then t1 ++ [Ev.build] else t1
      let t3 := if c.action = "test" then t2 ++ [Ev.test] else t2
      (t3, 0)

/-- Run of `main` in `scripts/build_windows.py` from the directory-handling step on
(the toolchain and cmake checks before it terminate the process without
touching the build directory or running any step): clean or ensure the build
directory, then run the gated action sequence.  Result: the event trace and
the process exit code. -/
def mainRun (c : BuildConfig) (fs : FS) (w : Oracle) : List Ev × Nat :=
  let dir := if c.clean_build then clean_build_dir fs else ensure_build_dir fs
  let acts := runActions c w
  (dir.1 ++ acts.1, acts.2)

/-- Build directory state handed to the configure step by `main`. -/
def fsAtConfigure (c : BuildConfig) (fs : FS) : FS :=
  (if c.clean_build then clean_build_dir fs else ensure_build_dir fs).2

/-! ### The VneCommon script `deps/internal/vnecommon/scripts/build_windows.py` -/

/-- The record produced by its `parser.parse_args()`. -/
structure VcArgs where
  release : Bool
  debug : Bool
  no_examples : Bool
  clean : Bool
  deriving Repr, DecidableEq

/-- Computation `build_type = "Release" if args.release else "Debug"` (`args.debug` is
never read). -/
def vcBuildType (a : VcArgs) : String := if a.release then "Release" else "Debug"

/-- Computation `build_examples = "OFF" if args.no_examples else "ON"`. -/
def vcBuildExamples (a : VcArgs) : String := if a.no_examples then "OFF" else "ON"

/-- Run of `main` in the VneCommon script from its directory handling on: rmtree
when `--clean` was given and the directory exists, mkdir, configure
(return 1 on nonzero exit), build (return 1 on nonzero exit), return 0. -/
def vcMain (a : VcArgs) (fs : FS) (w : Oracle) : List Ev × Nat :=
  let t0 := if a.clean ∧ fs.isSome then [Ev.rmtree] else []
  let t1 := t0 ++ [Ev.mkdir]
  if w.configureExit ≠ 0 then (t1 ++ [Ev.configure], 1)
  else if w.buildExit ≠ 0 then (t1 ++ [Ev.configure, Ev.build], 1)
  else (t1 ++ [Ev.configure, Ev.build], 0)

/-! ### Helper lemmas -/

/-- Field-by-field characterization of a completed `interactive_mode` run:
each field of the resulting configuration as a function of the stripped
answers and the incoming configuration. -/
theorem interactive_mode_fields (c : BuildConfig) (ans : Answers) (c' : BuildConfig)
    (h : interactive_mode c ans = some c') :
    c'.build_type =
      (if pyStrip ans.buildChoice = "2" then "Release"
       else if pyStrip ans.buildChoice = "3" then "RelWithDebInfo"
       else if pyStrip ans.buildChoice = "4" then "MinSizeRel"
       else "Debug") ∧
    c'.action =
      (if pyStrip ans.actionChoice = "1" then "configure"
       else if pyStrip ans.actionChoice = "3" then "test"
       else "configure_and_build") ∧
    c'.clean_build =
      (if pyLower (pyStrip ans.cleanChoice) = "y" then true else c.clean_build) ∧
    c'.jobs =
      (if pyStrip ans.jobsInput ≠ "" then
        (match pyInt (pyStrip ans.jobsInput) with
         | some n => n
         | none => c.jobs)
       else c.jobs) := by
  simp only [interactive_mode] at h
  by_cases hpr : pyLower (pyStrip ans.proceed) = "n"
  · simp [hpr] at h
  · simp only [hpr, if_false] at h
    by_cases hjs : pyStrip ans.jobsInput = "" <;>
      rcases hpi : pyInt (pyStrip ans.jobsInput) with _ | n <;>
      by_cases hcc : pyLower (pyStrip ans.cleanChoice) = "y" <;>
      simp only [hjs, hpi, hcc, ne_eq, not_true_eq_false, not_false_eq_true, if_true,
        if_false, ite_true, ite_false, Option.some_inj] at h ⊢ <;>
      subst h <;> simp

/-! ### Claim theorems -/

/-- C6: in interactive mode, for every non-empty parallelism input string
that does not parse as an integer, the configuration's jobs field keeps its
prior (default) value; the run completes without error (the embedding is a
total function, mirroring the `try/except ValueError` in the script). -/
theorem C6_invalid_jobs_input_keeps_prior (c : BuildConfig) (ans : Answers) (c' : BuildConfig)
    (hne : pyStrip ans.jobsInput ≠ "")
    (hbad : pyInt (pyStrip ans.jobsInput) = none)
    (h : interactive_mode c ans = some c') :
    c'.jobs = c.jobs := by
  have hj := (interactive_mode_fields c ans c' h).2.2.2
  rw [hj]
  simp [hne, hbad]

/-- Witness for C6: the unparsable input `xx` leaves the default 10 jobs. -/
theorem C6_witness :
    (interactive_mode default_BuildConfig ⟨"", "", "", "xx", ""⟩).map BuildConfig.jobs
      = some 10 := by
  have h : interactive_mode default_BuildConfig ⟨"", "", "", "xx", ""⟩
      = some default_BuildConfig := by decide
  have hj := C6_invalid_jobs_input_keeps_prior default_BuildConfig ⟨"", "", "", "xx", ""⟩
    default_BuildConfig (by decide) (by decide) h
  rw [h]
  exact congrArg some hj

/-- C9: in interactive mode, a build-type answer outside `2`/`3`/`4` sets
the build type to `Debug`, and an action answer outside `1`/`3` sets the
action to `configure_and_build`, whatever the incoming (flag-supplied)
configuration held. -/
theorem C9_unrecognized_prompt_answers_reset_to_prompt_defaults
    (c : BuildConfig) (ans : Answers) (c' : BuildConfig)
    (h : interactive_mode c ans = some c') :
    (pyStrip ans.buildChoice ∉ (["2", "3", "4"] : List String) → c'.build_type = "Debug") ∧
    (pyStrip ans.actionChoice ∉ (["1", "3"] : List String) → c'.action = "configure_and_build") := by
  obtain ⟨hbt, hac, -, -⟩ := interactive_mode_fields c ans c' h
  constructor
  · intro hnb
    simp only [List.mem_cons, List.mem_singleton, List.not_mem_nil, or_false, not_or] at hnb
    rw [hbt]
    simp [hnb.1, hnb.2.1, hnb.2.2]
  · intro hna
    simp only [List.mem_cons, List.mem_singleton, List.not_mem_nil, or_false, not_or] at hna
    rw [hac]
    simp [hna.1, hna.2]

/-- Witness for C9: flags chose `Release`/`test`, the empty prompt answers
reset the configuration to `Debug`/`configure_and_build`. -/
theorem C9_witness :
    (interactive_mode
        { default_BuildConfig with build_type := "Release", action := "test" }
        ⟨"9", "hello", "", "", ""⟩).map
      (fun k => (k.build_type, k.action)) = some ("Debug", "configure_and_build") := by
  have h : interactive_mode
      { default_BuildConfig with build_type := "Release", action := "test" }
      ⟨"9", "hello", "", "", ""⟩ = some default_BuildConfig := by decide
  have hk := C9_unrecognized_prompt_answers_reset_to_prompt_defaults
    { default_BuildConfig with build_type := "Release", action := "test" }
    ⟨"9", "hello", "", "", ""⟩ default_BuildConfig h
  have h1 := hk.1 (by decide)
  have h2 := hk.2 (by decide)
  rw [h]
  refine congrArg some ?_
  show (default_BuildConfig.build_type, default_BuildConfig.action) = _
  rw [h1, h2]

/-- C10: the interactive clean prompt is monotone: a stripped, lowercased
`y` sets the clean flag, any other answer leaves it at its prior value, so
a clean flag already set by the command line is never cleared. -/
theorem C10_clean_prompt_monotone (c : BuildConfig) (ans : Answers) (c' : BuildConfig)
    (h : interactive_mode c ans = some c') :
    (pyLower (pyStrip ans.cleanChoice) = "y" → c'.clean_build = true) ∧
    (pyLower (pyStrip ans.cleanChoice) ≠ "y" → c'.clean_build = c.clean_build) ∧
    (c.clean_build = true → c'.clean_build = true) := by
  obtain ⟨-, -, hcl, -⟩ := interactive_mode_fields c ans c' h
  refine ⟨fun hy => ?_, fun hn => ?_, fun hc => ?_⟩
  · rw [hcl]; simp [hy]
  · rw [hcl]; simp [hn]
  · rw [hcl]
    by_cases hy : pyLower (pyStrip ans.cleanChoice) = "y" <;> simp [hy, hc]

/-- Witness for C10: `--clean` given on the command line, prompt answered
`no`: the flag stays set. -/
theorem C10_witness :
    (interactive_mode { default_BuildConfig with clean_build := true }
        ⟨"", "", "no", "", ""⟩).map BuildConfig.clean_build = some true := by
  have h : interactive_mode { default_BuildConfig with clean_build := true }
      ⟨"", "", "no", "", ""⟩
      = some { default_BuildConfig with clean_build := true } := by decide
  have hk := C10_clean_prompt_monotone { default_BuildConfig with clean_build := true }
    ⟨"", "", "no", "", ""⟩ { default_BuildConfig with clean_build := true } h
  rw [h]
  exact congrArg some (hk.2.2 rfl)

/-- C1: action `configure` never invokes the build or test driver; action
`test` yields external tool invocations only in the order configure, build,
test (the trace is an initial segment of that sequence, and the whole
sequence when configure and build succeed). -/
theorem C1_configure_skips_drivers_and_test_is_ordered (c : BuildConfig) (w : Oracle) :
    (c.action = "configure" →
      Ev.build ∉ (runActions c w).1 ∧ Ev.test ∉ (runActions c w).1) ∧
    (c.action = "test" →
      ((runActions c w).1 = [Ev.configure] ∨
        (runActions c w).1 = [Ev.configure, Ev.build] ∨
        (runActions c w).1 = [Ev.configure, Ev.build, Ev.test]) ∧
      (w.configureExit = 0 → w.buildExit = 0 →
        (runActions c w).1 = [Ev.configure, Ev.build, Ev.test])) := by
  constructor
  · intro h
    by_cases hc : w.configureExit = 0 <;> simp [runActions, h, hc]
  · intro h
    by_cases hc : w.configureExit = 0 <;> by_cases hb : w.buildExit = 0 <;>
      simp [runActions, h, hc, hb]

/-- Witness for C1: action `test` with all tools succeeding runs all three
steps in order; action `configure` runs no build driver. -/
theorem C1_witness :
    (runActions { default_BuildConfig with action := "test" } ⟨0, 0, 7⟩).1
      = [Ev.configure, Ev.build, Ev.test] ∧
    Ev.build ∉ (runActions { default_BuildConfig with action := "configure" } ⟨0, 0, 0⟩).1 := by
  constructor
  · exact ((C1_configure_skips_drivers_and_test_is_ordered _ ⟨0, 0, 7⟩).2 rfl).2 rfl rfl
  · exact ((C1_configure_skips_drivers_and_test_is_ordered _ ⟨0, 0, 0⟩).1 rfl).1

/-- C2: when the action includes a build step, a nonzero configure exit
keeps the build driver from being invoked and the process exits 1; the same
holds in the VneCommon script (whose run always includes a build step). -/
theorem C2_configure_failure_blocks_build (c : BuildConfig) (fs : FS) (w : Oracle)
    (a : VcArgs) (fs2 : FS)
    (hb : c.action ∈ ["build", "configure_and_build", "test"])
    (hc : w.configureExit ≠ 0) :
    (Ev.build ∉ (mainRun c fs w).1 ∧ (mainRun c fs w).2 = 1) ∧
    (Ev.build ∉ (vcMain a fs2 w).1 ∧ (vcMain a fs2 w).2 = 1) := by
  have hcfg : c.action ∈ ["configure", "build", "configure_and_build", "test"] := by
    simp only [List.mem_cons, List.not_mem_nil, or_false] at hb ⊢
    tauto
  have hacts : runActions c w = ([Ev.configure], 1) := by
    simp [runActions, hcfg, hc]
  refine ⟨⟨?_, ?_⟩, ?_, ?_⟩
  · simp only [mainRun, hacts]
    rcases fs with _ | cs <;> by_cases hclean : c.clean_build <;>
      simp [clean_build_dir, ensure_build_dir, hclean]
  · simp [mainRun, hacts]
  · simp only [vcMain, hc]
    split <;> simp
  · simp [vcMain, hc]

/-- Witness for C2: configure exiting 2 under `configure_and_build` stops
the run with exit code 1 before any build. -/
theorem C2_witness :
    Ev.build ∉ (mainRun default_BuildConfig (some []) ⟨2, 0, 0⟩).1 ∧
    (mainRun default_BuildConfig (some []) ⟨2, 0, 0⟩).2 = 1 ∧
    (vcMain ⟨false, false, false, false⟩ none ⟨2, 0, 0⟩).2 = 1 := by
  have h := C2_configure_failure_blocks_build default_BuildConfig (some []) ⟨2, 0, 0⟩
    ⟨false, false, false, false⟩ none (by decide) (by decide)
  exact ⟨h.1.1, h.1.2, h.2.2⟩

/-- C3: for action `test` with configure and build succeeding, the test
driver runs and the process exit code is 0 whatever the test driver's exit
code was. -/
theorem C3_test_failure_keeps_exit_zero (c : BuildConfig) (fs : FS) (w : Oracle)
    (ha : c.action = "test") (h1 : w.configureExit = 0) (h2 : w.buildExit = 0) :
    (mainRun c fs w).2 = 0 ∧ Ev.test ∈ (mainRun c fs w).1 := by
  have hacts : runActions c w = ([Ev.configure, Ev.build, Ev.test], 0) := by
    simp [runActions, ha, h1, h2]
  constructor <;> simp [mainRun, hacts]

/-- Witness for C3: the test driver exits 5, the process still exits 0. -/
theorem C3_witness :
    (mainRun { default_BuildConfig with action := "test" } none ⟨0, 0, 5⟩).2 = 0 := by
  exact (C3_test_failure_keeps_exit_zero { default_BuildConfig with action := "test" }
    none ⟨0, 0, 5⟩ rfl rfl rfl).1

/-- C5: with the clean flag set and a pre-existing build directory, the
directory is recursively removed and then recreated (empty) before the
configure step runs, in both scripts. -/
theorem C5_clean_removes_then_recreates_before_configure (c : BuildConfig)
    (cs : List String) (w : Oracle) (a : VcArgs)
    (hcl : c.clean_build = true) (hvc : a.clean = true) :
    (mainRun c (some cs) w).1 = Ev.rmtree :: Ev.mkdir :: (runActions c w).1 ∧
    fsAtConfigure c (some cs) = some [] ∧
    (vcMain a (some cs) w).1.take 3 = [Ev.rmtree, Ev.mkdir, Ev.configure] := by
  refine ⟨?_, ?_, ?_⟩
  · simp [mainRun, hcl, clean_build_dir]
  · simp [fsAtConfigure, hcl, clean_build_dir]
  · by_cases hc : w.configureExit = 0 <;> by_cases hb : w.buildExit = 0 <;>
      simp [vcMain, hvc, hc, hb]

/-- Witness for C5 at a one-entry pre-existing directory. -/
theorem C5_witness :
    (mainRun { default_BuildConfig with clean_build := true } (some ["stale"]) ⟨0, 0, 0⟩).1
      = [Ev.rmtree, Ev.mkdir, Ev.configure, Ev.build] ∧
    fsAtConfigure { default_BuildConfig with clean_build := true } (some ["stale"]) = some [] := by
  have h := C5_clean_removes_then_recreates_before_configure
    { default_BuildConfig with clean_build := true } ["stale"] ⟨0, 0, 0⟩
    ⟨false, false, false, true⟩ rfl rfl
  refine ⟨?_, h.2.1⟩
  rw [h.1]
  rfl

/-- C8: action `build` still runs the configure step first: on a nonzero
configure exit the run stops with exit code 1 and no build, and only after
a zero configure exit is the build driver invoked. -/
theorem C8_build_action_still_configures (c : BuildConfig) (w : Oracle)
    (ha : c.action = "build") :
    (w.configureExit ≠ 0 →
      (runActions c w).1 = [Ev.configure] ∧ (runActions c w).2 = 1) ∧
    (w.configureExit = 0 → (runActions c w).1 = [Ev.configure, Ev.build]) := by
  constructor
  · intro hc
    simp [runActions, ha, hc]
  · intro hc
    by_cases hb : w.buildExit = 0 <;> simp [runActions, ha, hc, hb]

/-- Witness for C8: with action `build`, configure success leads to the
trace configure-then-build. -/
theorem C8_witness :
    (runActions { default_BuildConfig with action := "build" } ⟨0, 0, 0⟩).1
      = [Ev.configure, Ev.build] ∧
    (runActions { default_BuildConfig with action := "build" } ⟨9, 0, 0⟩).2 = 1 := by
  refine ⟨?_, ?_⟩
  · exact (C8_build_action_still_configures _ ⟨0, 0, 0⟩ rfl).2 rfl
  · exact ((C8_build_action_still_configures _ ⟨9, 0, 0⟩ rfl).1 (by decide)).2

/-- C4: for every valid flag combination with interactive mode off, parsing
succeeds and every field of the resulting configuration record equals the
value supplied by the corresponding flag, and the documented default for
every omitted flag. -/
theorem C4_config_fields_equal_flags_or_defaults (f : FlagSet) (ans : Answers)
    (hbt : ∀ v, f.buildType = some v → v ∈ buildTypeChoices)
    (hac : ∀ v, f.action = some v → v ∈ actionChoices)
    (hj : ∀ v, f.jobsStr = some v → (pyInt v).isSome = true)
    (hni : f.interactive = false) :
    parseArgs f.tokens = some f.specResolve ∧
    setupConfig f.tokens ans = some (configFromArgs f.specResolve) ∧
    (configFromArgs f.specResolve).build_type = f.buildType.getD "Debug" ∧
    (configFromArgs f.specResolve).action = f.action.getD "configure_and_build" ∧
    (∀ v n, f.jobsStr = some v → pyInt v = some n →
      (configFromArgs f.specResolve).jobs = n) ∧
    (f.jobsStr = none → (configFromArgs f.specResolve).jobs = 10) ∧
    (configFromArgs f.specResolve).clean_build = f.clean ∧
    (configFromArgs f.specResolve).interactive = false := by
  obtain ⟨bt, ac, js, cl, iv⟩ := f
  have hiv : iv = false := hni
  subst hiv
  have key : parseArgs (FlagSet.tokens ⟨bt, ac, js, cl, false⟩)
      = some (FlagSet.specResolve ⟨bt, ac, js, cl, false⟩) := by
    rcases js with _ | v3
    · rcases bt with _ | v1 <;> rcases ac with _ | v2 <;> cases cl <;>
        simp [parseArgs, FlagSet.tokens, FlagSet.specResolve, parseTokens, hbt, hac,
          defaultArgs]
    · obtain ⟨n, hn⟩ := Option.isSome_iff_exists.mp (hj v3 rfl)
      rcases bt with _ | v1 <;> rcases ac with _ | v2 <;> cases cl <;>
        simp [parseArgs, FlagSet.tokens, FlagSet.specResolve, parseTokens, hbt, hac, hn,
          defaultArgs]
  refine ⟨key, ?_, rfl, rfl, ?_, ?_, rfl, rfl⟩
  · simp [setupConfig, key, setupFromArgs, configFromArgs, FlagSet.specResolve]
  · intro v n hv hn
    subst hv
    simp [configFromArgs, FlagSet.specResolve, hn]
  · intro hv
    subst hv
    simp [configFromArgs, FlagSet.specResolve]

/-- Witness for C4: `--build-type Release --jobs 4 --clean` yields the
record with build type `Release`, default action, 4 jobs, clean set. -/
theorem C4_witness :
    setupConfig (FlagSet.tokens ⟨some "Release", none, some "4", true, false⟩) emptyAnswers
      = some (configFromArgs
          (FlagSet.specResolve ⟨some "Release", none, some "4", true, false⟩)) ∧
    (configFromArgs (FlagSet.specResolve ⟨some "Release", none, some "4", true, false⟩)).jobs
      = 4 := by
  have h := C4_config_fields_equal_flags_or_defaults
    ⟨some "Release", none, some "4", true, false⟩ emptyAnswers
    (by intro v hv; injection hv with hv; subst hv; decide)
    (fun v hv => nomatch hv)
    (by intro v hv; injection hv with hv; subst hv; decide)
    rfl
  exact ⟨h.2.1, h.2.2.2.2.1 "4" 4 rfl (by decide)⟩

/-- Counterexample for C7 as stated: the command line `--jobs 0` completes
configuration setup with a parallelism of 0, which is not positive — the
scripts never validate positivity of the jobs value. -/
theorem C7_counterexample :
    (setupConfig ["--jobs", "0"] emptyAnswers).isSome = true ∧
    ¬ 0 < ((setupConfig ["--jobs", "0"] emptyAnswers).getD default_BuildConfig).jobs := by
  decide

/-- C7 amended: after configuration setup the parallelism field is a
positive integer provided every user-supplied parallelism value is positive:
the flag value must be positive (the default 10 is), and any interactive
parallelism input that parses as an integer must parse to a positive one.
The code itself performs no positivity check. -/
theorem C7_jobs_positive_when_supplied_positive (a : Args) (ans : Answers) (c' : BuildConfig)
    (hpos : 0 < a.jobs)
    (hans : ∀ n : Int, pyInt (pyStrip ans.jobsInput) = some n → 0 < n)
    (h : setupFromArgs a ans = some c') :
    0 < c'.jobs := by
  simp only [setupFromArgs] at h
  by_cases hi : (configFromArgs a).interactive
  · rw [if_pos hi] at h
    have hj := (interactive_mode_fields _ _ _ h).2.2.2
    rw [hj]
    by_cases hne : pyStrip ans.jobsInput = ""
    · simp [hne, configFromArgs, hpos]
    · rcases hpi : pyInt (pyStrip ans.jobsInput) with _ | n
      · simp [hne, hpi, configFromArgs, hpos]
      · simp only [hne, ne_eq, not_false_eq_true, if_true, hpi]
        exact hans n hpi
  · rw [if_neg hi] at h
    injection h with h
    subst h
    simpa [configFromArgs] using hpos

/-- Witness for the amended C7: interactive setup with parallelism answer 3
ends with a positive jobs field. -/
theorem C7_witness :
    0 < (((setupFromArgs { defaultArgs with interactive := true }
      ⟨"", "", "", "3", ""⟩).getD default_BuildConfig).jobs) := by
  have h : setupFromArgs { defaultArgs with interactive := true } ⟨"", "", "", "3", ""⟩
      = some { default_BuildConfig with interactive := true, jobs := 3 } := by decide
  have hp := C7_jobs_positive_when_supplied_positive { defaultArgs with interactive := true }
    ⟨"", "", "", "3", ""⟩ { default_BuildConfig with interactive := true, jobs := 3 }
    (by decide)
    (by intro n hn
        have h3 : pyInt (pyStrip "3") = some 3 := by decide
        rw [h3] at hn
        injection hn with hn
        subst hn
        decide)
    h
  rw [h]
  exact hp

end VneLogging
